import Mathlib

/-!
Verification of the tetracyclic-polymer gyration analysis scripts.

Shallow embedding of the statistical pipeline implemented by
`analysis_scripts/compute_gyration.py` and
`analysis_scripts/compute_gyration (1).py`.

Numeric values are modelled by `ℚ` where the computation is rational
(sums, means, variances, windows, running averages) and by `ℝ` where the
source takes square roots (`np.std`, `np.sqrt`).  A series is the list of
parsed `(timestep, rg)` rows; most statistics only look at the `rg` column,
so they are stated on a plain `List ℚ` of values.
-/

namespace Gyration

/-- Embeds `np.mean(xs)`: the arithmetic mean `sum / len`.
(On the empty list this yields `0/0 = 0` in `ℚ`; NumPy yields NaN there.
Every claim below is stated on non-empty input.) -/
def mean (xs : List ℚ) : ℚ := xs.sum / xs.length

/-- The population variance: `np.std` with the default `ddof=0` squares to
`(Σ (v - mean)^2) / N`. -/
def variance (xs : List ℚ) : ℚ :=
  ((xs.map (fun v => (v - mean xs) ^ 2)).sum) / xs.length

/-- Embeds `np.std(xs)` (default `ddof=0`, population standard deviation):
the square root of the population variance. -/
noncomputable def std (xs : List ℚ) : ℝ := Real.sqrt (variance xs)

/-- Embeds `equilibrated_start = len(rg_values) // 2`
(`compute_gyration (1).py`, line 27): integer floor division. -/
def equilibrated_start (xs : List ℚ) : ℕ := xs.length / 2

/-- Embeds `equilibrated_rg = rg_values[equilibrated_start:]`
(`compute_gyration (1).py`, line 28): the half-tail selection window. -/
def equilibrated_rg (xs : List ℚ) : List ℚ := xs.drop (equilibrated_start xs)

/-- Embeds `np.cumsum`: `cumsumFrom acc xs` is the list of partial sums of
`xs` starting from accumulator `acc`. -/
def cumsumFrom (acc : ℚ) : List ℚ → List ℚ
  | [] => []
  | x :: xs => (acc + x) :: cumsumFrom (acc + x) xs

/-- `np.cumsum(rg_values)`. -/
def cumsum (xs : List ℚ) : List ℚ := cumsumFrom 0 xs

/-- Embeds `running_avg = np.cumsum(rg_values) / np.arange(1, len(rg_values) + 1)`
(`compute_gyration.py`, line 71): elementwise division of the cumulative sums
by `[1, 2, ..., N]`. -/
def running_avg (xs : List ℚ) : List ℚ :=
  List.zipWith (fun (s : ℚ) (k : ℕ) => s / (k : ℚ)) (cumsum xs) (List.range' 1 xs.length)

/-- Embeds `rg_linear_theoretical = rg_tetracyclic / np.sqrt(expected_g)`
(`compute_gyration (1).py`, line 44). -/
noncomputable def rg_linear_theoretical (rg_tetracyclic expected_g : ℝ) : ℝ :=
  rg_tetracyclic / Real.sqrt expected_g

/-- Embeds `actual_g = (rg_tetracyclic ** 2) / (rg_linear_theoretical ** 2)`
(`compute_gyration (1).py`, line 47). -/
noncomputable def actual_g (rg_tetracyclic expected_g : ℝ) : ℝ :=
  rg_tetracyclic ^ 2 / (rg_linear_theoretical rg_tetracyclic expected_g) ^ 2

/-- The expected g-factor constant `expected_g = 0.445`
(`compute_gyration (1).py`, line 41). -/
noncomputable def expected_g : ℝ := 0.445

section
open Classical

/-- Embeds the classification branch of `compute_gyration (1).py`
(lines 56-61): `if abs(actual_g - expected_g) < 0.05` prints EXCELLENT,
`elif ... < 0.1` prints GOOD, else NEEDS REVIEW.  The argument is the
absolute difference; the returned label uses the spec's names for the
three branches. -/
noncomputable def classify (diff : ℝ) : String :=
  if diff < 0.05 then "excellent"
  else if diff < 0.1 then "good"
  else "needs_review"

end

/-- The environment of one run: what `np.loadtxt(filename)` finds at the
input path.  The file is absent (`loadtxt` raises `FileNotFoundError`),
present but not parseable as a uniform numeric table (`loadtxt` raises a
`ValueError`), or parsed into a list of two-column numeric rows. -/
inductive LoadResult where
  | notFound
  | malformed
  | ok (rows : List (ℚ × ℚ))

/-- The Python exceptions the body of the `try` block in
`analyze_gyration_data` can raise, as discriminated by its two `except`
clauses: `FileNotFoundError` (carrying the offending filename, which the
handler reports) and every other `Exception`. -/
inductive PyError where
  | fileNotFound (filename : String)
  | other

/-- The body of the `try` block of `analyze_gyration_data` in
`compute_gyration (1).py`: load the table, select the half-tail window,
compute its mean and standard deviation, derive the g-factor, and write the
two artifact files (returned as the list of paths written).  A missing file
raises `FileNotFoundError`; a malformed table raises inside `loadtxt`; with
fewer than two rows `loadtxt` returns a 1-D array and `data[:, 0]` raises
`IndexError` — all before any artifact is written.  File writes themselves
are modelled as succeeding. -/
noncomputable def analyzeCore (load : LoadResult) (filename : String) :
    Except PyError ((ℝ × ℚ × ℝ) × List String) :=
  match load with
  | .notFound => .error (.fileNotFound filename)
  | .malformed => .error .other
  | .ok rows =>
    if rows.length < 2 then .error .other
    else
      let rg_values := rows.map Prod.snd
      let eq_rg := equilibrated_rg rg_values
      let avg_rg := mean eq_rg
      let std_rg := std eq_rg
      let g := actual_g (avg_rg : ℝ) expected_g
      .ok ((g, avg_rg, std_rg), ["rg_analysis_results.png", "g_factor_results.txt"])

/-- `analyze_gyration_data` of `compute_gyration (1).py` as seen by its
caller: the `try/except` wrapper catches `FileNotFoundError` and every
other `Exception` and returns the sentinel `(None, None, None)` (modelled
as `none`, paired with the empty artifact list since every modelled raise
happens before the first write); on success it returns the
`(actual_g, avg_rg, std_rg)` triple and the artifacts written. -/
noncomputable def analyze_gyration_data (load : LoadResult) (filename : String) :
    Option (ℝ × ℚ × ℝ) × List String :=
  match analyzeCore load filename with
  | .error _ => (none, [])
  | .ok (r, arts) => (some r, arts)

/-- `conf_int = stats.t.interval(0.95, n-1, loc=mean_rg, scale=std_rg/np.sqrt(n))`
(`compute_gyration.py`, lines 36-37), modelled parametrically in the
critical-value function `tcrit : df ↦ t_ppf(0.975, df)` of the symmetric
Student t distribution: scipy returns the interval
`loc ± tcrit(df) * scale`, and for `df ≤ 0` its quantile is undefined and
it returns `(nan, nan)`, modelled as `none`.  No exception is raised in
either case.  Subtraction `n - 1` is on `ℕ`, matching Python's `n-1` for
the occurring `n ≥ 1`. -/
noncomputable def conf_int (tcrit : ℕ → ℝ) (xs : List ℚ) : Option (ℝ × ℝ) :=
  if 1 ≤ xs.length - 1 then
    some ((mean xs : ℝ) - tcrit (xs.length - 1) * (std xs / Real.sqrt xs.length),
          (mean xs : ℝ) + tcrit (xs.length - 1) * (std xs / Real.sqrt xs.length))
  else none

/-! Helper lemmas. -/

lemma mean_replicate (n : ℕ) (c : ℚ) (h : 0 < n) : mean (List.replicate n c) = c := by
  rw [mean, List.sum_replicate, List.length_replicate, nsmul_eq_mul, mul_comm,
    mul_div_assoc, div_self (by exact_mod_cast h.ne'), mul_one]

lemma variance_replicate (n : ℕ) (c : ℚ) (h : 0 < n) :
    variance (List.replicate n c) = 0 := by
  rw [variance, mean_replicate n c h, List.map_replicate]
  simp

lemma cumsumFrom_length (acc : ℚ) (xs : List ℚ) : (cumsumFrom acc xs).length = xs.length := by
  induction xs generalizing acc with
  | nil => rfl
  | cons x t ih => simp [cumsumFrom, ih]

lemma cumsumFrom_getElem? (xs : List ℚ) (acc : ℚ) (i : ℕ) (h : i < xs.length) :
    (cumsumFrom acc xs)[i]? = some (acc + (xs.take (i + 1)).sum) := by
  induction xs generalizing acc i with
  | nil => simp at h
  | cons x t ih =>
    cases i with
    | zero => simp [cumsumFrom]
    | succ j =>
      have hj : j < t.length := by simpa using h
      rw [cumsumFrom, List.getElem?_cons_succ, ih (acc + x) j hj,
        List.take_succ_cons, List.sum_cons, add_assoc]

lemma cumsum_getElem? (xs : List ℚ) (i : ℕ) (h : i < xs.length) :
    (cumsum xs)[i]? = some ((xs.take (i + 1)).sum) := by
  rw [cumsum, cumsumFrom_getElem? xs 0 i h, zero_add]

lemma running_avg_getElem? (xs : List ℚ) (i : ℕ) (h : i < xs.length) :
    (running_avg xs)[i]? = some (mean (xs.take (i + 1))) := by
  rw [running_avg, List.getElem?_zipWith', cumsum_getElem? xs i h,
    List.getElem?_range' 1 1 h]
  have h1 : 1 + 1 * i = i + 1 := by omega
  rw [h1]
  simp only [Option.map_some', Option.some_bind]
  rw [mean, List.length_take, Nat.min_eq_left (Nat.succ_le_of_lt h)]

lemma actual_g_eq (m g : ℝ) (hm : m ≠ 0) (hg : 0 < g) : actual_g m g = g := by
  rw [actual_g, rg_linear_theoretical, div_pow, Real.sq_sqrt hg.le,
    div_div_eq_mul_div, mul_comm (m ^ 2) g, mul_div_assoc,
    div_self (pow_ne_zero 2 hm), mul_one]

lemma classify_zero : classify 0 = "excellent" := by
  rw [classify, if_pos (by norm_num)]

/-! The claims. -/

/-- Claim C3: for every non-empty series of length `N`, the half-tail
selection window `equilibrated_rg` is exactly the index range `[N/2, N)`
with integer floor division: its length is `N - N/2`, that length is at
most `N`, and its `i`-th element is the series' `(N/2 + i)`-th element. -/
theorem half_tail_window_spec (xs : List ℚ) (h : xs ≠ []) :
    (equilibrated_rg xs).length = xs.length - xs.length / 2
    ∧ (equilibrated_rg xs).length ≤ xs.length
    ∧ ∀ i : ℕ, (equilibrated_rg xs)[i]? = xs[xs.length / 2 + i]? := by
  refine ⟨?_, ?_, fun i => ?_⟩
  · rw [equilibrated_rg, equilibrated_start, List.length_drop]
  · rw [equilibrated_rg, equilibrated_start, List.length_drop]
    exact Nat.sub_le _ _
  · rw [equilibrated_rg, equilibrated_start, List.getElem?_drop]

theorem half_tail_window_spec_witness :
    (equilibrated_rg [(1:ℚ), 2, 3]).length = 3 - 3 / 2
    ∧ (equilibrated_rg [(1:ℚ), 2, 3]).length ≤ 3
    ∧ (equilibrated_rg [(1:ℚ), 2, 3])[0]? = [(1:ℚ), 2, 3][1]? := by
  have h := half_tail_window_spec [(1:ℚ), 2, 3] (by simp)
  exact ⟨h.1, h.2.1, h.2.2 0⟩

/-- Claim C2 (evidence): on a series of length 1 the half-tail selection of
`compute_gyration (1).py` does not fail at all: `equilibrated_start` is
`1 // 2 = 0` and the window `rg_values[0:]` is the whole one-element
series, which the script then silently analyses.  No
`InsufficientDataError` (nor any other exception) exists anywhere in the
code for this case, contradicting the claim. -/
theorem half_tail_length_one_no_error :
    equilibrated_start [(5:ℚ)] = 0 ∧ equilibrated_rg [(5:ℚ)] = [(5:ℚ)] := by
  constructor <;> rfl

/-- Claim C5: the standard deviation is the population standard deviation
(denominator `N`, not `N-1`): on the window `[0, 2]` it yields variance
`1 = ((0-1)^2 + (2-1)^2)/2` where the sample convention would give `2`;
and on every non-empty window of identical values the variance, hence the
standard deviation, is exactly `0`. -/
theorem population_std_spec :
    variance [(0:ℚ), 2] = 1
    ∧ ∀ (n : ℕ) (c : ℚ), 0 < n →
        variance (List.replicate n c) = 0 ∧ std (List.replicate n c) = 0 := by
  refine ⟨by norm_num [variance, mean], fun n c h => ⟨variance_replicate n c h, ?_⟩⟩
  rw [std, variance_replicate n c h]
  simp

theorem population_std_spec_witness :
    0 < 3 ∧ variance (List.replicate 3 (5:ℚ)) = 0 ∧ std (List.replicate 3 (5:ℚ)) = 0 :=
  ⟨by norm_num, (population_std_spec.2 3 5 (by norm_num)).1,
    (population_std_spec.2 3 5 (by norm_num)).2⟩

/-- Claim C1: for every positive measured average Rg `m` and positive
expected g-factor `g`, the computed g-factor
`actual_g = m^2 / (m / sqrt g)^2` equals `g` — exactly, in particular
within the tolerance `1e-9`: the formula is algebraically circular and
independent of the input data. -/
theorem g_factor_circularity (m g : ℝ) (hm : 0 < m) (hg : 0 < g) :
    actual_g m g = g ∧ |actual_g m g - g| ≤ 1e-9 := by
  have h := actual_g_eq m g hm.ne' hg
  refine ⟨h, ?_⟩
  rw [h, sub_self, abs_zero]
  norm_num

theorem g_factor_circularity_witness :
    (0:ℝ) < 2 ∧ (0:ℝ) < 0.445
    ∧ actual_g 2 0.445 = 0.445 ∧ |actual_g 2 0.445 - 0.445| ≤ 1e-9 :=
  ⟨by norm_num, by norm_num,
    (g_factor_circularity 2 0.445 (by norm_num) (by norm_num)).1,
    (g_factor_circularity 2 0.445 (by norm_num) (by norm_num)).2⟩

/-- Claim C4: the classification of the absolute difference uses half-open
bands: `"excellent"` exactly on `[0, 0.05)` (for a difference, which is
non-negative; the iff below holds for every real), `"good"` exactly on
`[0.05, 0.1)`, `"needs_review"` exactly on `[0.1, ∞)`; in particular a
difference of exactly `0.05` classifies as `"good"` and exactly `0.1` as
`"needs_review"`. -/
theorem classification_bands :
    (∀ d : ℝ, (classify d = "excellent" ↔ d < 0.05)
      ∧ (classify d = "good" ↔ 0.05 ≤ d ∧ d < 0.1)
      ∧ (classify d = "needs_review" ↔ 0.1 ≤ d))
    ∧ classify 0.05 = "good" ∧ classify 0.1 = "needs_review" := by
  have hband : ∀ d : ℝ, (classify d = "excellent" ↔ d < 0.05)
      ∧ (classify d = "good" ↔ 0.05 ≤ d ∧ d < 0.1)
      ∧ (classify d = "needs_review" ↔ 0.1 ≤ d) := by
    intro d
    by_cases h1 : d < 0.05
    · rw [classify, if_pos h1]
      refine ⟨iff_of_true rfl h1, iff_of_false (by decide) ?_, iff_of_false (by decide) ?_⟩
      · exact fun hc => absurd h1 (not_lt.mpr hc.1)
      · exact fun hc => absurd h1 (not_lt.mpr (le_trans (by norm_num) hc))
    · by_cases h2 : d < 0.1
      · rw [classify, if_neg h1, if_pos h2]
        refine ⟨iff_of_false (by decide) h1, iff_of_true rfl ⟨not_lt.mp h1, h2⟩,
          iff_of_false (by decide) (fun hc => absurd h2 (not_lt.mpr hc))⟩
      · rw [classify, if_neg h1, if_neg h2]
        refine ⟨iff_of_false (by decide) (fun hc => absurd hc ?_),
          iff_of_false (by decide) (fun hc => absurd hc.2 h2), iff_of_true rfl (not_lt.mp h2)⟩
        exact fun hc => h2 (lt_trans hc (by norm_num))
  refine ⟨hband, ?_, ?_⟩
  · exact (hband 0.05).2.1.mpr ⟨le_refl _, by norm_num⟩
  · exact (hband 0.1).2.2.mpr (le_refl _)

theorem classification_bands_witness :
    classify 0.03 = "excellent" ∧ classify 0.05 = "good" ∧ classify 0.1 = "needs_review" :=
  ⟨(classification_bands.1 0.03).1.mpr (by norm_num),
    classification_bands.2.1, classification_bands.2.2⟩

/-- Claim C10: the computed g-factor and the classification label are
independent of the input series: for any two series whose half-tail window
mean is positive, `compute_gyration (1).py` computes the same g-factor and
the same classification for both, and that classification is always
`"excellent"` (the difference from `expected_g` is `0 < 0.05`). -/
theorem g_factor_input_independence (xs ys : List ℚ)
    (hx : 0 < mean (equilibrated_rg xs)) (hy : 0 < mean (equilibrated_rg ys)) :
    actual_g (mean (equilibrated_rg xs) : ℝ) expected_g
      = actual_g (mean (equilibrated_rg ys) : ℝ) expected_g
    ∧ classify |actual_g (mean (equilibrated_rg xs) : ℝ) expected_g - expected_g|
      = classify |actual_g (mean (equilibrated_rg ys) : ℝ) expected_g - expected_g|
    ∧ classify |actual_g (mean (equilibrated_rg xs) : ℝ) expected_g - expected_g|
      = "excellent" := by
  have hg : (0:ℝ) < expected_g := by rw [expected_g]; norm_num
  have h1 : actual_g (mean (equilibrated_rg xs) : ℝ) expected_g = expected_g :=
    actual_g_eq _ _ (by exact_mod_cast hx.ne') hg
  have h2 : actual_g (mean (equilibrated_rg ys) : ℝ) expected_g = expected_g :=
    actual_g_eq _ _ (by exact_mod_cast hy.ne') hg
  rw [h1, h2, sub_self, abs_zero]
  exact ⟨rfl, rfl, classify_zero⟩

theorem g_factor_input_independence_witness :
    0 < mean (equilibrated_rg [(1:ℚ)]) ∧ 0 < mean (equilibrated_rg [(2:ℚ), 4])
    ∧ actual_g (mean (equilibrated_rg [(1:ℚ)]) : ℝ) expected_g
      = actual_g (mean (equilibrated_rg [(2:ℚ), 4]) : ℝ) expected_g
    ∧ classify |actual_g (mean (equilibrated_rg [(1:ℚ)]) : ℝ) expected_g - expected_g|
      = "excellent" := by
  have hx : 0 < mean (equilibrated_rg [(1:ℚ)]) := by norm_num [equilibrated_rg, equilibrated_start, mean]
  have hy : 0 < mean (equilibrated_rg [(2:ℚ), 4]) := by norm_num [equilibrated_rg, equilibrated_start, mean]
  have h := g_factor_input_independence [(1:ℚ)] [(2:ℚ), 4] hx hy
  exact ⟨hx, hy, h.1, h.2.2⟩

/-- Claim C6: for every series of length `N ≥ 1`, the running-average
sequence `np.cumsum(rg_values) / np.arange(1, N + 1)` has length `N`, its
element at index `i` is the arithmetic mean of `values[0..i]` inclusive
(so element `0` equals `values[0]`), and its last element equals the mean
of the full series. -/
theorem running_average_spec (xs : List ℚ) (h : 1 ≤ xs.length) :
    (running_avg xs).length = xs.length
    ∧ (∀ i : ℕ, i < xs.length → (running_avg xs)[i]? = some (mean (xs.take (i + 1))))
    ∧ (running_avg xs)[0]? = xs[0]?
    ∧ (running_avg xs).getLast? = some (mean xs) := by
  have hlen : (running_avg xs).length = xs.length := by
    rw [running_avg, List.length_zipWith, cumsum, cumsumFrom_length, List.length_range']
    exact min_self _
  refine ⟨hlen, fun i hi => running_avg_getElem? xs i hi, ?_, ?_⟩
  · rw [running_avg_getElem? xs 0 h]
    cases xs with
    | nil => simp at h
    | cons x t => simp [mean]
  · rw [List.getLast?_eq_getElem?, hlen, running_avg_getElem? xs (xs.length - 1) (by omega)]
    congr 1
    rw [Nat.sub_add_cancel h, List.take_length]

theorem running_average_spec_witness :
    1 ≤ ([(2:ℚ), 4]).length
    ∧ (running_avg [(2:ℚ), 4]).length = ([(2:ℚ), 4]).length
    ∧ (running_avg [(2:ℚ), 4])[0]? = [(2:ℚ), 4][0]?
    ∧ (running_avg [(2:ℚ), 4]).getLast? = some (mean [(2:ℚ), 4]) := by
  have h := running_average_spec [(2:ℚ), 4] (by norm_num)
  exact ⟨by norm_num, h.1, h.2.2.1, h.2.2.2⟩

/-- Claim C7 (evidence): for `n ≥ 2` the confidence interval is the
symmetric t-interval with `n - 1` degrees of freedom, centred at the mean
(upper − mean = mean − lower) with standard-error scale `std / sqrt n`;
but for a window of one sample the code computes
`stats.t.interval(0.95, 0, ...)`, whose `df = 0` quantile is NaN: it
returns NaN bounds (`none`) and raises nothing, contradicting the claim's
`InsufficientDataError`. -/
theorem conf_int_t_structure (tcrit : ℕ → ℝ) (xs : List ℚ) (h : 2 ≤ xs.length) :
    conf_int tcrit xs
      = some ((mean xs : ℝ) - tcrit (xs.length - 1) * (std xs / Real.sqrt xs.length),
              (mean xs : ℝ) + tcrit (xs.length - 1) * (std xs / Real.sqrt xs.length))
    ∧ (∀ lo hi, conf_int tcrit xs = some (lo, hi)
        → hi - (mean xs : ℝ) = (mean xs : ℝ) - lo)
    ∧ (∀ v : ℚ, conf_int tcrit [v] = none) := by
  have h1 : conf_int tcrit xs
      = some ((mean xs : ℝ) - tcrit (xs.length - 1) * (std xs / Real.sqrt xs.length),
              (mean xs : ℝ) + tcrit (xs.length - 1) * (std xs / Real.sqrt xs.length)) := by
    rw [conf_int, if_pos (by omega)]
  refine ⟨h1, fun lo hi heq => ?_, fun v => ?_⟩
  · rw [h1] at heq
    simp only [Option.some.injEq, Prod.mk.injEq] at heq
    obtain ⟨hlo, hhi⟩ := heq
    rw [← hlo, ← hhi]
    ring
  · rw [conf_int, if_neg (by simp)]

theorem conf_int_t_structure_witness :
    2 ≤ ([(1:ℚ), 3]).length
    ∧ conf_int (fun _ => 2) [(1:ℚ), 3]
      = some ((2:ℝ) - 2 * (1 / Real.sqrt 2), (2:ℝ) + 2 * (1 / Real.sqrt 2))
    ∧ conf_int (fun _ => 2) [(10:ℚ)] = none := by
  have h := conf_int_t_structure (fun _ => 2) [(1:ℚ), 3] (by norm_num)
  refine ⟨by norm_num, ?_, h.2.2 10⟩
  have hv : variance [(1:ℚ), 3] = 1 := by norm_num [variance, mean]
  have hstd : std [(1:ℚ), 3] = 1 := by
    rw [std, hv]
    norm_num
  have hm : mean [(1:ℚ), 3] = 2 := by norm_num [mean]
  rw [h.1, hstd, hm]
  norm_num

/-- Claim C8: for a nonexistent input path the analysis fails in the
branch for the error identifying the source name (`FileNotFoundError`,
whose handler reports the filename — the spec's `SourceNotFoundError`),
and no output artifact is created: `np.loadtxt` raises before any plot or
results file is written, so failure is atomic. -/
theorem source_not_found_atomic (filename : String) :
    analyzeCore .notFound filename = .error (.fileNotFound filename)
    ∧ analyze_gyration_data .notFound filename = (none, []) :=
  ⟨rfl, rfl⟩

theorem source_not_found_atomic_witness :
    analyzeCore .notFound "gyration.txt" = .error (.fileNotFound "gyration.txt")
    ∧ analyze_gyration_data .notFound "gyration.txt" = (none, []) :=
  source_not_found_atomic "gyration.txt"

/-- Claim C9: `analyze_gyration_data` never propagates an exception to its
caller: its result is always either the sentinel `none` (Python's
`(None, None, None)`) or a `some` result triple; every error raised inside
the `try` body — missing file, malformed or too-short data — is caught and
mapped to the sentinel with no artifacts written, and every success is
returned unchanged. -/
theorem no_exception_propagates (load : LoadResult) (filename : String) :
    ((analyze_gyration_data load filename).1 = none
      ∨ ∃ r, (analyze_gyration_data load filename).1 = some r)
    ∧ (∀ e, analyzeCore load filename = .error e
        → analyze_gyration_data load filename = (none, []))
    ∧ (∀ r arts, analyzeCore load filename = .ok (r, arts)
        → analyze_gyration_data load filename = (some r, arts)) := by
  refine ⟨?_, fun e he => ?_, fun r arts hr => ?_⟩
  · cases hc : analyzeCore load filename with
    | error e =>
      left
      simp only [analyze_gyration_data, hc]
    | ok p =>
      obtain ⟨r, arts⟩ := p
      right
      exact ⟨r, by simp only [analyze_gyration_data, hc]⟩
  · simp only [analyze_gyration_data, he]
  · simp only [analyze_gyration_data, hr]

theorem no_exception_propagates_witness :
    analyzeCore .malformed "gyration.txt" = .error .other
    ∧ analyze_gyration_data .malformed "gyration.txt" = (none, []) :=
  ⟨rfl, (no_exception_propagates .malformed "gyration.txt").2.1 .other rfl⟩

end Gyration
